import Mathlib

set_option maxHeartbeats 1000000

namespace NbaProjections

/-! Shallow embedding of `src/projections/player_game.py`.

Numeric model: Python floats are modelled exactly by rationals, with the IEEE
NaN sentinel made explicit.  A value read out of a row dictionary is one of
`PyVal.none` (the key is absent, i.e. Python `None` from `dict.get`),
`PyVal.nan` (the missing-value sentinel the loader writes for empty cells), or
`PyVal.num q` (an ordinary float).  Python truthiness on these values: `None`
and `0.0` are falsy; NaN is truthy.  Arithmetic propagates NaN.  `None` never
reaches arithmetic on the code paths proved about below (the loader populates
every numeric key), so the arithmetic operations totalise that unreachable
case to NaN. -/

inductive PyVal where
  | none
  | nan
  | num (q : ℚ)
deriving DecidableEq, Inhabited

def PyVal.truthy : PyVal → Bool
  | .none => false
  | .nan => true
  | .num q => q != 0

def PyVal.isNum : PyVal → Bool
  | .num _ => true
  | _ => false

def PyVal.toQ : PyVal → ℚ
  | .num q => q
  | _ => 0

/-- Python `a or b`. -/
def pyOr (a b : PyVal) : PyVal := if a.truthy then a else b

/-- `dict.get(key, default)`: an absent key yields the default, any present
value (NaN included) is returned as is. -/
def pyGet (v d : PyVal) : PyVal := if v = PyVal.none then d else v

def pyAdd : PyVal → PyVal → PyVal
  | .num a, .num b => .num (a + b)
  | _, _ => .nan

def pySub : PyVal → PyVal → PyVal
  | .num a, .num b => .num (a - b)
  | _, _ => .nan

def pyMul : PyVal → PyVal → PyVal
  | .num a, .num b => .num (a * b)
  | _, _ => .nan

/-- Division.  Dividing by literal zero would raise in Python; every division
in the source is guarded by a truthiness check on the divisor or divides by a
nonzero constant, so that branch is unreachable and totalised to NaN. -/
def pyDiv : PyVal → PyVal → PyVal
  | .num a, .num b => if b = 0 then .nan else .num (a / b)
  | _, _ => .nan

/-- Python `a > b` on floats: any comparison involving NaN is false. -/
def pyGtB : PyVal → PyVal → Bool
  | .num a, .num b => decide (b < a)
  | _, _ => false

/-- Python `a < b` on floats: any comparison involving NaN is false. -/
def pyLtB : PyVal → PyVal → Bool
  | .num a, .num b => decide (a < b)
  | _, _ => false

/-- Python `max(a, b)`: keeps `a` unless `b > a`, hence `max(nan, x) = nan`
and `max(x, nan) = x`. -/
def pyMax (a b : PyVal) : PyVal := if pyGtB b a then b else a

/-- `statistics.mean`, exact over rationals; NaN anywhere in the input gives
NaN.  Python raises on an empty list; the source only calls it on nonempty
windows (sizes 5 and 10, and the backtester guards `len(history) < 5`), so
the empty case is totalised to NaN. -/
def pyMean (l : List PyVal) : PyVal :=
  if l.isEmpty then .nan
  else if l.all PyVal.isNum then .num ((l.map PyVal.toQ).sum / l.length)
  else .nan

/-- Rational square-root approximation: exact on perfect squares and strictly
positive on positive inputs (the numerator of a positive rational is at least
one, so its `Nat.sqrt` is at least one).  It stands in for the irrational
values of `statistics.pstdev`; no theorem below depends on its value, because
on every path proved about the `len(set(...)) == 1` guard in `_rolling_std`
returns exactly `0.0` before `pstdev` is ever called, or the result is
discarded by a falsy-`or` fallback. -/
def ratSqrt (q : ℚ) : ℚ := (Nat.sqrt q.num.natAbs : ℚ) / (Nat.sqrt q.den : ℚ)

/-- `statistics.pstdev` (population standard deviation). -/
def pyPstdev (l : List PyVal) : PyVal :=
  if l.isEmpty then .nan
  else if l.all PyVal.isNum then
    let xs := l.map PyVal.toQ
    let m := xs.sum / xs.length
    .num (ratSqrt ((xs.map (fun x => (x - m) ^ 2)).sum / xs.length))
  else .nan

/-- Python list slice `l[a:b]` for `0 ≤ a ≤ b ≤ len(l)`. -/
def pySlice {α : Type} (l : List α) (a b : ℕ) : List α := (l.drop a).take (b - a)

/-- `_rolling` (source lines 54-62): rolling mean, `None` until the window is
fully observed. -/
def rolling (values : List PyVal) (window : ℕ) : List PyVal :=
  (List.range values.length).map fun idx =>
    if idx + 1 < window then PyVal.none
    else pyMean (pySlice values (idx + 1 - window) (idx + 1))

/-- `len(set(window_values)) == 1`: a CPython set deduplicates by equality and
NaN objects (each parsed from its own cell) never compare equal, so the set is
a singleton exactly when the window has a single element, or all its values
are equal and none is NaN.  (`None` elements would deduplicate, which the
all-equal clause also covers.) -/
def setHasOneElement (ws : List PyVal) : Bool :=
  ws.length == 1 || (!ws.any (· == PyVal.nan) && ws.all (· == ws.headI))

/-- `_rolling_std` (source lines 65-76): population std over the window, with
an exact `0.0` when all window values are identical. -/
def rolling_std (values : List PyVal) (window : ℕ) : List PyVal :=
  (List.range values.length).map fun idx =>
    if idx + 1 < window then PyVal.none
    else
      let ws := pySlice values (idx + 1 - window) (idx + 1)
      if setHasOneElement ws then PyVal.num 0 else pyPstdev ws

/-- `_rolling_slope` (source lines 79-93): least-squares slope of the window
values against positions `0..n-1`, the zero denominator replaced by `1.0`
through `sum(...) or 1.0`. -/
def rolling_slope (values : List PyVal) (window : ℕ) : List PyVal :=
  (List.range values.length).map fun idx =>
    if idx + 1 < window then PyVal.none
    else
      let ws := pySlice values (idx + 1 - window) (idx + 1)
      let n := ws.length
      if ws.all PyVal.isNum then
        let ys := ws.map PyVal.toQ
        let xMean : ℚ := ((List.range n).map (fun x => (x : ℚ))).sum / n
        let yMean : ℚ := ys.sum / n
        let numer : ℚ :=
          (((List.range n).zip ys).map (fun p => ((p.1 : ℚ) - xMean) * (p.2 - yMean))).sum
        let denom : ℚ := ((List.range n).map (fun x => ((x : ℚ) - xMean) ^ 2)).sum
        PyVal.num (numer / (if denom = 0 then 1 else denom))
      else PyVal.nan

/-- A loaded game-log row.  The loader writes every numeric key, using the NaN
sentinel for an empty cell, so a loader-produced record never carries
`PyVal.none` in a numeric field; `WF` below captures that invariant.  Dates
are modelled as ordinals (`Option ℕ`, `none` for a missing date). -/
structure GameRecord where
  game_date : Option ℕ := Option.none
  opponent : Option String := Option.none
  player_id : Option String := Option.none
  minutes : PyVal := PyVal.nan
  usage_rate : PyVal := PyVal.nan
  true_shooting_pct : PyVal := PyVal.nan
  sorare_score : PyVal := PyVal.nan
  points : PyVal := PyVal.nan
  pace : PyVal := PyVal.nan
  opponent_def_rating : PyVal := PyVal.nan
deriving DecidableEq, Inhabited

/-- Loader invariant: every numeric key is present (possibly NaN). -/
def GameRecord.WF (r : GameRecord) : Prop :=
  r.minutes ≠ PyVal.none ∧ r.usage_rate ≠ PyVal.none ∧
  r.true_shooting_pct ≠ PyVal.none ∧ r.sorare_score ≠ PyVal.none ∧
  r.points ≠ PyVal.none ∧ r.pace ≠ PyVal.none ∧ r.opponent_def_rating ≠ PyVal.none

instance (r : GameRecord) : Decidable r.WF := by
  unfold GameRecord.WF
  infer_instance

/-- A `GameRecord` enriched by `engineer_features` (source lines 96-147). -/
structure FeatureRecord where
  base : GameRecord := {}
  minutes_avg_5 : PyVal := PyVal.none
  minutes_avg_10 : PyVal := PyVal.none
  minutes_trend : PyVal := PyVal.num 0
  usage_avg_5 : PyVal := PyVal.none
  usage_avg_10 : PyVal := PyVal.none
  ts_avg_5 : PyVal := PyVal.none
  ts_avg_10 : PyVal := PyVal.none
  pace_avg_5 : PyVal := PyVal.none
  opp_def_avg_5 : PyVal := PyVal.none
  sorare_mean_10 : PyVal := PyVal.none
  sorare_std_10 : PyVal := PyVal.none
  points_avg_5 : PyVal := PyVal.none
  points_avg_10 : PyVal := PyVal.none
  points_std_10 : PyVal := PyVal.none
  flag_high_pace : Bool := false
  flag_low_minutes : Bool := false
  flag_efficiency_spike : Bool := false
  flag_scoring_run : Bool := false
deriving DecidableEq, Inhabited

/-- `engineer_features` (source lines 96-147).  `sorare_score` and `points`
are read through `.get(key, nan)`, the other metrics by direct indexing; the
flag guards are Python truthiness on the trailing-5 mean, so a zero or
undefined mean yields flag `0`. -/
def engineer_features (rows : List GameRecord) : List FeatureRecord :=
  let minutes := rows.map (·.minutes)
  let usage := rows.map (·.usage_rate)
  let ts := rows.map (·.true_shooting_pct)
  let pace := rows.map (·.pace)
  let opp_def := rows.map (·.opponent_def_rating)
  let sorare := rows.map (fun r => pyGet r.sorare_score PyVal.nan)
  let points := rows.map (fun r => pyGet r.points PyVal.nan)
  (List.range rows.length).map fun idx =>
    let row := rows.getD idx default
    let m5 := (rolling minutes 5).getD idx PyVal.none
    let p5 := (rolling pace 5).getD idx PyVal.none
    let t5 := (rolling ts 5).getD idx PyVal.none
    let pt5 := (rolling points 5).getD idx PyVal.none
    { base := row
      minutes_avg_5 := m5
      minutes_avg_10 := (rolling minutes 10).getD idx PyVal.none
      minutes_trend :=
        match (rolling_slope minutes 5).getD idx PyVal.none with
        | PyVal.none => PyVal.num 0
        | v => v
      usage_avg_5 := (rolling usage 5).getD idx PyVal.none
      usage_avg_10 := (rolling usage 10).getD idx PyVal.none
      ts_avg_5 := t5
      ts_avg_10 := (rolling ts 10).getD idx PyVal.none
      pace_avg_5 := p5
      opp_def_avg_5 := (rolling opp_def 5).getD idx PyVal.none
      sorare_mean_10 := (rolling sorare 10).getD idx PyVal.none
      sorare_std_10 := (rolling_std sorare 10).getD idx PyVal.none
      points_avg_5 := pt5
      points_avg_10 := (rolling points 10).getD idx PyVal.none
      points_std_10 := (rolling_std points 10).getD idx PyVal.none
      flag_high_pace :=
        if p5.truthy then
          pyGtB (pace.getD idx PyVal.nan)
            (pyMul (pyOr p5 (pace.getD idx PyVal.nan)) (PyVal.num 1.02))
        else false
      flag_low_minutes :=
        if m5.truthy then
          pyLtB (minutes.getD idx PyVal.nan)
            (pyMul (pyOr m5 (minutes.getD idx PyVal.nan)) (PyVal.num 0.9))
        else false
      flag_efficiency_spike :=
        if t5.truthy then
          pyGtB (ts.getD idx PyVal.nan)
            (pyMul (pyOr t5 (ts.getD idx PyVal.nan)) (PyVal.num 1.05))
        else false
      flag_scoring_run :=
        if pt5.truthy then
          pyGtB (points.getD idx PyVal.nan)
            (pyMul (pyOr pt5 (points.getD idx PyVal.nan)) (PyVal.num 1.05))
        else false }

/-- Lower-cased character list of a string (`status.lower()`). -/
def lowerStr (s : String) : List Char := s.toList.map Char.toLower

/-- Substring containment on character lists. -/
def containsSub (hay pat : List Char) : Bool := hay.tails.any fun t => pat.isPrefixOf t

/-- Case-insensitive `pat in s.lower()` (the patterns used are lower-case). -/
def strContains (s pat : String) : Bool := containsSub (lowerStr s) pat.toList

/-- `_injury_minutes_modifier` (source lines 150-160): falsy status (missing
or empty) is a no-op; otherwise the lower-cased status is checked for
"questionable", then "probable", then "out". -/
def injury_minutes_modifier : Option String → ℚ
  | Option.none => 1
  | some s =>
    if s = "" then 1
    else if strContains s "questionable" then 0.92
    else if strContains s "probable" then 0.97
    else if strContains s "out" then 0
    else 1

/-- The context dictionary consumed by `project_player_game`; a `PyVal.none`
field models an absent key. -/
structure Context where
  player_id : Option String := Option.none
  player_name : Option String := Option.none
  projected_minutes : PyVal := PyVal.none
  injury_status : Option String := Option.none
  pace_context : PyVal := PyVal.none
  vegas_total : PyVal := PyVal.none
  opponent_def_rating : PyVal := PyVal.none
  usage_rate : PyVal := PyVal.none
  true_shooting_pct : PyVal := PyVal.none
deriving DecidableEq, Inhabited

/-- `_safe(value, fallback)` (source lines 171-176): `None` and NaN fall back;
the fallback is returned unconverted, so it may itself be NaN. -/
def safe (v fb : PyVal) : PyVal :=
  match v with
  | .num q => .num q
  | _ => fb

/-- `ProjectionResult` (source lines 13-26).  `expected_usage` and
`expected_efficiency` keep the three-valued `PyVal` so that a Python `None`
result stays distinguishable from NaN and from numbers. -/
structure ProjectionResult where
  player_id : String := ""
  expected_points : PyVal := PyVal.none
  expected_score : PyVal := PyVal.none
  expected_minutes : PyVal := PyVal.none
  expected_usage : PyVal := PyVal.none
  expected_efficiency : PyVal := PyVal.none
  lower_ci : PyVal := PyVal.none
  upper_ci : PyVal := PyVal.none
  notes : String := ""
deriving DecidableEq, Inhabited

/-- All local quantities of `project_player_game` (source lines 178-235) that
feed the returned record, including the composite `expected_score` of lines
214-220 which line 240 then discards. -/
structure BlendParts where
  minutes_blend : PyVal := PyVal.none
  base_usage : PyVal := PyVal.none
  expected_usage : PyVal := PyVal.none
  expected_efficiency : PyVal := PyVal.none
  expected_points : PyVal := PyVal.none
  expected_score : PyVal := PyVal.none
  lower_ci : PyVal := PyVal.none
  upper_ci : PyVal := PyVal.none
  notes : String := ""
deriving DecidableEq, Inhabited

/-- Source lines 178-235, transcribed clause by clause.  In line 216 the
Python expression `0.55 * base_usage` would raise a `TypeError` when
`base_usage` is `None`; that needs `usage_rate` to be an absent key, which the
loader never produces (`GameRecord.WF`), so `pyMul` totalises it to NaN. -/
def blendParts (latest : FeatureRecord) (ctx : Context) : BlendParts :=
  let base_minutes := safe latest.minutes_avg_5 latest.base.minutes
  let projected_minutes := pyGet ctx.projected_minutes base_minutes
  let minutes_trend := pyGet latest.minutes_trend (PyVal.num 0)
  let minutes_blend0 :=
    pyAdd (pyAdd (pyMul (PyVal.num 0.55) projected_minutes)
        (pyMul (PyVal.num 0.45) base_minutes)) minutes_trend
  let minutes_blend1 :=
    pyMul minutes_blend0 (PyVal.num (injury_minutes_modifier ctx.injury_status))
  let minutes_blend := pyMax minutes_blend1 (PyVal.num 0)
  let base_usage0 := pyOr latest.usage_avg_5 latest.base.usage_rate
  let base_usage :=
    if base_usage0 = PyVal.none then PyVal.none
    else safe base_usage0 (pyGet ctx.usage_rate (PyVal.num 0))
  let pace_context :=
    pyGet ctx.pace_context (pyOr latest.pace_avg_5 (pyOr latest.base.pace (PyVal.num 100)))
  let pace_anchor := safe latest.pace_avg_5 pace_context
  let usage_adjustment :=
    pyAdd (PyVal.num 1) (pyDiv (pySub pace_context pace_anchor) (PyVal.num 100))
  let expected_usage :=
    if base_usage = PyVal.none then PyVal.none else pyMul base_usage usage_adjustment
  let base_eff0 := pyOr latest.ts_avg_5 latest.base.true_shooting_pct
  let base_eff :=
    if base_eff0 = PyVal.none then PyVal.none
    else safe base_eff0 (pyGet ctx.true_shooting_pct (PyVal.num 0.56))
  let opp_def_anchor :=
    safe latest.opp_def_avg_5 (pyGet latest.base.opponent_def_rating (PyVal.num 110))
  let opp_scheme := pyGet ctx.opponent_def_rating opp_def_anchor
  let efficiency_adjustment :=
    if opp_def_anchor.truthy then
      pySub (PyVal.num 1) (pyDiv (pySub opp_scheme opp_def_anchor) (PyVal.num 250))
    else PyVal.num 1
  let expected_efficiency :=
    if base_eff = PyVal.none then PyVal.none else pyMul base_eff efficiency_adjustment
  let points_prior := safe latest.points_avg_5 (pyGet latest.base.points (PyVal.num 0))
  let latest_minutes := safe latest.minutes_avg_5 (pyGet latest.base.minutes base_minutes)
  let minutes_factor :=
    if latest_minutes.truthy then pyDiv minutes_blend latest_minutes else PyVal.num 1
  let usage_factor :=
    if expected_usage.truthy && base_usage.truthy then pyDiv expected_usage base_usage
    else PyVal.num 1
  let eff_anchor := safe latest.ts_avg_5 (pyGet latest.base.true_shooting_pct (PyVal.num 0.56))
  let eff_factor :=
    if expected_efficiency.truthy && eff_anchor.truthy then pyDiv expected_efficiency eff_anchor
    else PyVal.num 1
  let pace_factor :=
    pyAdd (PyVal.num 1) (pyDiv (pySub pace_context pace_anchor) (PyVal.num 110))
  let expected_points :=
    pyMul (pyMul (pyMul (pyMul points_prior minutes_factor) usage_factor) eff_factor)
      pace_factor
  let sorare_prior := pyOr latest.sorare_mean_10 (pyOr latest.base.sorare_score expected_points)
  let pace_bonus := pyMul (pySub pace_context pace_anchor) (PyVal.num 0.25)
  let vegas_total := pyGet ctx.vegas_total (PyVal.num 220)
  let vegas_adjustment := pyMul (pySub vegas_total (PyVal.num 220)) (PyVal.num 0.1)
  let expected_score :=
    pyAdd
      (pyAdd
        (pyAdd (pyMul (PyVal.num 0.35) sorare_prior)
          (pyMul (PyVal.num 0.40)
            (pyAdd (pyMul minutes_blend (PyVal.num 1.15))
              (pyOr expected_usage (pyOr (pyMul (PyVal.num 0.55) base_usage) (PyVal.num 0))))))
        (pyMul (PyVal.num 0.15)
          (pyAdd (pyMul (pyOr expected_efficiency (PyVal.num 0.56)) (PyVal.num 60)) pace_bonus)))
      (pyAdd (pyMul (PyVal.num 0.10) expected_points) vegas_adjustment)
  let points_std := pyOr latest.points_std_10 (pyOr latest.sorare_std_10 (PyVal.num 6))
  let ci_width := pyMax (PyVal.num 4) (pyMul points_std (PyVal.num 1.15))
  let lower_ci := pyMax (PyVal.num 0) (pySub expected_points ci_width)
  let upper_ci := pyAdd expected_points ci_width
  let notes :=
    String.intercalate "; "
      ((if latest.flag_high_pace then ["Recent games at above-average pace"] else []) ++
        (if latest.flag_low_minutes then ["Recent minutes dip to monitor"] else []) ++
        (match ctx.injury_status with
          | some s => if s = "" then [] else ["Injury status: " ++ s]
          | Option.none => []) ++
        (if latest.flag_scoring_run then ["Scoring surge in recent stretch"] else []))
  { minutes_blend := minutes_blend
    base_usage := base_usage
    expected_usage := expected_usage
    expected_efficiency := expected_efficiency
    expected_points := expected_points
    expected_score := expected_score
    lower_ci := lower_ci
    upper_ci := upper_ci
    notes := notes }

/-- Second fallback of the identifier chain of source line 169. -/
def resolvePlayerName (ctx : Context) : String :=
  match ctx.player_name with
  | some s => if s = "" then "unknown_player" else s
  | Option.none => "unknown_player"

/-- `str(context.get("player_id") or context.get("player_name") or
"unknown_player")` (source line 169); an empty string is falsy. -/
def resolvePlayerId (ctx : Context) : String :=
  match ctx.player_id with
  | some s => if s = "" then resolvePlayerName ctx else s
  | Option.none => resolvePlayerName ctx

/-- `project_player_game` (source lines 163-247).  Line 240 populates the
`expected_score` field from the local `expected_points`, not from the
composite `expected_score` local computed at lines 214-220. -/
def project_player_game (features : List FeatureRecord) (ctx : Context) :
    Except String ProjectionResult :=
  if features.isEmpty then .error "Feature set is empty; cannot project player."
  else
    let latest := features.getLastD default
    let P := blendParts latest ctx
    .ok
      { player_id := resolvePlayerId ctx
        expected_points := P.expected_points
        expected_score := P.expected_points
        expected_minutes := P.minutes_blend
        expected_usage := P.expected_usage
        expected_efficiency := P.expected_efficiency
        lower_ci := P.lower_ci
        upper_ci := P.upper_ci
        notes := P.notes }

/-- One output row of `backtest_recent_games` (source lines 274-284). -/
structure BacktestRow where
  game_date : Option ℕ := Option.none
  opponent : Option String := Option.none
  projected_points : PyVal := PyVal.none
  actual_points : PyVal := PyVal.none
  projection_minutes : PyVal := PyVal.none
  actual_minutes : PyVal := PyVal.none
  notes : String := ""
deriving DecidableEq, Inhabited

/-- Python `l[-5:]`. -/
def lastFive (l : List GameRecord) : List GameRecord := l.drop (l.length - 5)

/-- The synthetic context built inside the backtest loop (source lines
262-272).  `pace_context` and `opponent_def_rating` read the actual game
being evaluated, falling back to trailing-5 history means when falsy. -/
def backtestContext (history : List GameRecord) (actual : GameRecord) : Context :=
  let pace_context := pyOr actual.pace (pyMean ((lastFive history).map (·.pace)))
  { player_id := some (actual.player_id.getD "unknown_player")
    projected_minutes := pyMean ((lastFive history).map (·.minutes))
    injury_status := some "Healthy"
    pace_context := pace_context
    vegas_total :=
      pyAdd (PyVal.num 220) (pyMul (pySub pace_context (PyVal.num 100)) (PyVal.num 1.5))
    opponent_def_rating :=
      pyOr actual.opponent_def_rating
        (pyMean ((lastFive history).map (·.opponent_def_rating))) }

/-- One iteration of the backtest loop (source lines 257-284) as a function of
the sliced history `rows[:idx]` and the evaluated record `rows[idx]`.  The
error branch is unreachable for the indices the loop keeps (`len(history) >=
5` makes the feature list nonempty). -/
def backtestEntryCore (history : List GameRecord) (actual : GameRecord) : BacktestRow :=
  match project_player_game (engineer_features history) (backtestContext history actual) with
  | .ok p =>
    { game_date := actual.game_date
      opponent := actual.opponent
      projected_points := p.expected_points
      actual_points := actual.points
      projection_minutes := p.expected_minutes
      actual_minutes := actual.minutes
      notes := p.notes }
  | .error _ => default

/-- The comparison record the backtest produces for index `idx`. -/
def backtestEntry (rows : List GameRecord) (idx : ℕ) : BacktestRow :=
  backtestEntryCore (rows.take idx) (rows.getD idx default)

/-- `backtest_recent_games` (source lines 250-285): raises when
`len(rows) <= lookback`, otherwise walks the indices `len(rows)-lookback ..
len(rows)-1`, skipping those with fewer than five prior games
(`len(history) = idx` there). -/
def backtest_recent_games (rows : List GameRecord) (lookback : ℕ) :
    Except String (List BacktestRow) :=
  if rows.length ≤ lookback then .error "Not enough games to run a backtest."
  else
    .ok ((List.range' (rows.length - lookback) lookback).foldl
      (fun acc idx => if idx < 5 then acc else acc ++ [backtestEntry rows idx]) [])

/-- A raw CSV row before parsing (source lines 35-49): `Option.none` in a
numeric column models an empty cell, which the loader turns into NaN; a
missing date stays `Option.none`. -/
structure RawRow where
  game_date : Option ℕ := Option.none
  opponent : Option String := Option.none
  player_id : Option String := Option.none
  minutes : Option ℚ := Option.none
  usage_rate : Option ℚ := Option.none
  true_shooting_pct : Option ℚ := Option.none
  sorare_score : Option ℚ := Option.none
  points : Option ℚ := Option.none
  pace : Option ℚ := Option.none
  opponent_def_rating : Option ℚ := Option.none
deriving DecidableEq, Inhabited

/-- `float(row[key]) if row[key] != "" else float("nan")` (source line 49). -/
def parseCell : Option ℚ → PyVal
  | Option.none => PyVal.nan
  | some q => PyVal.num q

def parseRow (r : RawRow) : GameRecord :=
  { game_date := r.game_date
    opponent := r.opponent
    player_id := r.player_id
    minutes := parseCell r.minutes
    usage_rate := parseCell r.usage_rate
    true_shooting_pct := parseCell r.true_shooting_pct
    sorare_score := parseCell r.sorare_score
    points := parseCell r.points
    pace := parseCell r.pace
    opponent_def_rating := parseCell r.opponent_def_rating }

/-- The sort key of line 50, `r["game_date"] or datetime.min`: dates are
ordinals, `datetime.min` is the least one, modelled as `0`. -/
def dateKey (r : GameRecord) : ℕ := r.game_date.getD 0

/-- CPython's `list.sort(key=...)` is stable, hence equal to sorting the
index-annotated rows by the lexicographic order on (key, original position),
which is total, transitive and antisymmetric on distinct positions. -/
def lexLe (p q : ℕ × GameRecord) : Prop :=
  dateKey p.2 < dateKey q.2 ∨ (dateKey p.2 = dateKey q.2 ∧ p.1 ≤ q.1)

instance : DecidableRel lexLe := fun p q => by
  unfold lexLe
  infer_instance

instance : IsTotal (ℕ × GameRecord) lexLe := by
  constructor
  intro p q
  unfold lexLe
  omega

instance : IsTrans (ℕ × GameRecord) lexLe := by
  constructor
  intro p q r
  unfold lexLe
  omega

/-- `rows.sort(key=lambda r: r["game_date"] or datetime.min)` (line 50). -/
def stableSortByDate (l : List GameRecord) : List GameRecord :=
  (List.insertionSort lexLe l.enum).map Prod.snd

/-- `load_game_logs` (source lines 29-51).  The filesystem is abstracted to an
`Option`: `none` is a nonexistent path (`FileNotFoundError`), `some rows` the
parsed CSV rows.  `rows[-trailing:]` keeps the last `trailing` records, and
`[-0:]` is the whole list. -/
def load_game_logs (source : Option (List RawRow)) (trailing_games : ℕ) :
    Except String (List GameRecord) :=
  match source with
  | Option.none => .error "Game log not found"
  | some rows =>
    let parsed := rows.map parseRow
    let sorted := stableSortByDate parsed
    .ok (if trailing_games = 0 then sorted else sorted.drop (sorted.length - trailing_games))

/-! Concrete scenarios used by several claims. -/

/-- One game of the constant 12-game series of the spec scenario: minutes 30,
points 20, pace 100, opponent defensive rating 110, fantasy score 40; usage
and true shooting held at representative constants. -/
def constRow : GameRecord :=
  { game_date := some 1, minutes := PyVal.num 30, usage_rate := PyVal.num 0.2,
    true_shooting_pct := PyVal.num 0.5, sorare_score := PyVal.num 40,
    points := PyVal.num 20, pace := PyVal.num 100, opponent_def_rating := PyVal.num 110 }

def constRows : List GameRecord := List.replicate 12 constRow

def constFeatures : List FeatureRecord := engineer_features constRows

def constCtx : Context :=
  { projected_minutes := PyVal.num 30, pace_context := PyVal.num 100,
    opponent_def_rating := PyVal.num 110, vegas_total := PyVal.num 220 }

/-- Three games whose usage rate and true-shooting percentage are the NaN
missing-value sentinel (an empty CSV cell), every other numeric field a
number; with only three games every trailing-5 mean is still undefined. -/
def nanUsageRow : GameRecord :=
  { game_date := some 1, minutes := PyVal.num 30, sorare_score := PyVal.num 40,
    points := PyVal.num 20, pace := PyVal.num 100, opponent_def_rating := PyVal.num 110 }

def nanUsageRows : List GameRecord := List.replicate 3 nanUsageRow

/-- An eight-game series; `niRows2` differs from `niRows1` in every field of
the record at index 6 except `pace` and `opponent_def_rating`, and in the
whole record at index 7. -/
def niRows1 : List GameRecord := List.replicate 8 constRow

def niRows2 : List GameRecord :=
  List.replicate 6 constRow ++
    [{ constRow with
        minutes := PyVal.num 11
        usage_rate := PyVal.num 0.4
        true_shooting_pct := PyVal.num 0.7
        sorare_score := PyVal.num 5
        points := PyVal.num 50
        game_date := some 9
        opponent := some "X"
        player_id := some "p2" },
      {}]


/-- C1 (code evidence): at the constant scenario the blender's returned
`expected_score` equals `expected_points` (20), while the composite weighted
sum of source lines 214-220 evaluates to 34.38 — line 240 populates the
field from the wrong local. -/
theorem expected_score_field_discards_composite :
    ((project_player_game constFeatures constCtx).toOption.map
        fun p => (p.expected_score, p.expected_points)) =
      some (PyVal.num 20, PyVal.num 20) ∧
    (blendParts (constFeatures.getLastD default) constCtx).expected_score =
      PyVal.num 34.38 ∧
    PyVal.num 20 ≠ PyVal.num 34.38 := by
  refine ⟨by with_unfolding_all rfl, by with_unfolding_all rfl,
    by simp [PyVal.num.injEq]; norm_num⟩

/-- C2 (counterexample): at the constant 12-game scenario the confidence
width `upper_ci - expected_points` is 6.9, not the claimed 4.0: the exact
`points_std_10 == 0.0` is falsy, so `points_std_10 or sorare_std_10 or 6.0`
falls through to 6.0 and the width is `max(4.0, 6.0 * 1.15)`. -/
theorem constant_series_width_not_four :
    ((project_player_game constFeatures constCtx).toOption.map
        fun p => pySub p.upper_ci p.expected_points) = some (PyVal.num 6.9) ∧
    PyVal.num 6.9 ≠ PyVal.num 4 := by
  refine ⟨by with_unfolding_all rfl, by simp [PyVal.num.injEq]; norm_num⟩

/-- C2 (amended): the constant 12-game scenario yields `points_avg_5 == 20`,
`points_std_10 == 0`, `expected_points == 20`, and a confidence width of 6.9
(the zero standard deviation is falsy and replaced by the 6.0 fallback). -/
theorem constant_series_scenario_amended :
    (constFeatures.getD 11 default).points_avg_5 = PyVal.num 20 ∧
    (constFeatures.getD 11 default).points_std_10 = PyVal.num 0 ∧
    ((project_player_game constFeatures constCtx).toOption.map
        fun p => (p.expected_points, pySub p.upper_ci p.expected_points)) =
      some (PyVal.num 20, PyVal.num 6.9) := by
  refine ⟨by with_unfolding_all rfl, by with_unfolding_all rfl, by with_unfolding_all rfl⟩

/-- C3 (counterexample): with the usage and true-shooting bases entirely
undefined through the NaN sentinel, the blender returns `expected_usage = 0`
(the defaulted context fallback), not `None`, and `expected_points` is NaN,
i.e. not finite. -/
theorem nan_usage_defaults_to_zero_cx :
    ((project_player_game (engineer_features nanUsageRows) {}).toOption.map
        fun p => (p.expected_usage, p.expected_efficiency, p.expected_points)) =
      some (PyVal.num 0, PyVal.num 0.56, PyVal.nan) ∧
    PyVal.num 0 ≠ PyVal.none := by
  refine ⟨by with_unfolding_all rfl, by simp⟩

/-- The mean of a list of actual numbers is the exact arithmetic mean. -/
theorem pyMean_map_num (l : List ℚ) (h : l ≠ []) :
    pyMean (l.map PyVal.num) = PyVal.num (l.sum / l.length) := by
  have hall : (l.map PyVal.num).all PyVal.isNum = true := by
    simp [List.all_map, Function.comp, PyVal.isNum]
  have hmap : (l.map PyVal.num).map PyVal.toQ = l := by
    rw [List.map_map]
    have hcomp : PyVal.toQ ∘ PyVal.num = id := funext fun q => rfl
    rw [hcomp, List.map_id]
  simp [pyMean, List.isEmpty_iff, h, hall, hmap]

theorem rolling_length (values : List PyVal) (w : ℕ) :
    (rolling values w).length = values.length := by
  simp [rolling]

/-- C6: for any metric value series and window size w (w ≥ 1; a window of
size 0 is degenerate, `statistics.mean` of an empty slice raises), the rolling
mean at index i is undefined exactly while i+1 < w, and for i+1 ≥ w it equals
the arithmetic mean of exactly the w values at positions i+1-w .. i. -/
theorem rolling_mean_window_spec (values : List ℚ) (w : ℕ) (hw : 0 < w) (i : ℕ)
    (hi : i < values.length) :
    (rolling (values.map PyVal.num) w).length = values.length ∧
    (i + 1 < w → (rolling (values.map PyVal.num) w).getD i PyVal.none = PyVal.none) ∧
    (w ≤ i + 1 →
      ((values.drop (i + 1 - w)).take w).length = w ∧
      (rolling (values.map PyVal.num) w).getD i PyVal.none =
        PyVal.num (((values.drop (i + 1 - w)).take w).sum /
          (((values.drop (i + 1 - w)).take w).length : ℚ))) := by
  have hlen : (rolling (values.map PyVal.num) w).length = values.length := by
    simp [rolling_length]
  have hget :
      (rolling (values.map PyVal.num) w).getD i PyVal.none =
        if i + 1 < w then PyVal.none
        else pyMean (pySlice (values.map PyVal.num) (i + 1 - w) (i + 1)) := by
    rw [List.getD_eq_getElem _ _ (by omega : i < (rolling (values.map PyVal.num) w).length)]
    simp [rolling]
  refine ⟨hlen, fun h => by rw [hget, if_pos h], fun h => ?_⟩
  have hlen5 : ((values.drop (i + 1 - w)).take w).length = w := by
    rw [List.length_take, List.length_drop]
    omega
  have hslice :
      pySlice (values.map PyVal.num) (i + 1 - w) (i + 1) =
        ((values.drop (i + 1 - w)).take w).map PyVal.num := by
    have harg : i + 1 - (i + 1 - w) = w := by omega
    rw [pySlice, harg, ← List.map_drop, ← List.map_take]
  have hne : (values.drop (i + 1 - w)).take w ≠ [] := by
    intro hcon
    have h0 : ((values.drop (i + 1 - w)).take w).length = 0 := by
      rw [hcon]
      rfl
    rw [hlen5] at h0
    omega
  rw [hget, if_neg (by omega)]
  exact ⟨hlen5, by rw [hslice, pyMean_map_num _ hne, hlen5]⟩

/-- Witness for `rolling_mean_window_spec` at a concrete series. -/
theorem rolling_mean_window_spec_witness :
    (rolling ([1, 2, 3, 4].map PyVal.num) 3).length = 4 ∧
    (2 + 1 < 3 → (rolling ([1, 2, 3, 4].map PyVal.num) 3).getD 2 PyVal.none = PyVal.none) ∧
    (3 ≤ 2 + 1 →
      ((([1, 2, 3, 4] : List ℚ).drop (2 + 1 - 3)).take 3).length = 3 ∧
      (rolling ([1, 2, 3, 4].map PyVal.num) 3).getD 2 PyVal.none =
        PyVal.num (((([1, 2, 3, 4] : List ℚ).drop (2 + 1 - 3)).take 3).sum /
          (((([1, 2, 3, 4] : List ℚ).drop (2 + 1 - 3)).take 3).length : ℚ))) :=
  rolling_mean_window_spec [1, 2, 3, 4] 3 (by decide) 2 (by decide)

theorem engineer_features_length (rows : List GameRecord) :
    (engineer_features rows).length = rows.length := by
  simp [engineer_features]

/-- C9: the Feature Engine returns exactly one output per input record in the
same order, and every output record carries its input record unchanged as its
original fields; the embedding is a pure function of its argument, so neither
the input list nor any input record is mutated (the source builds each output
as `dict(row)` plus new keys). -/
theorem engineer_features_frame (rows : List GameRecord) (hwf : ∀ r ∈ rows, r.WF) :
    (engineer_features rows).length = rows.length ∧
    ∀ i, i < rows.length →
      ((engineer_features rows).getD i default).base = rows.getD i default := by
  refine ⟨engineer_features_length rows, fun i hi => ?_⟩
  rw [List.getD_eq_getElem _ _ (by rw [engineer_features_length]; exact hi)]
  simp [engineer_features]

/-- Witness for `engineer_features_frame` at a concrete series and index. -/
theorem engineer_features_frame_witness :
    ((engineer_features constRows).getD 7 default).base = constRows.getD 7 default :=
  (engineer_features_frame constRows (by decide)).2 7 (by decide)

/-- C10: a trailing-5 anchor mean that is defined but equals exactly 0.0
disables the corresponding boolean flag, the same as an undefined anchor: the
flag guard is Python truthiness of the mean, and 0.0 is falsy. -/
theorem zero_or_undefined_anchor_flags (rows : List GameRecord) (hwf : ∀ r ∈ rows, r.WF)
    (i : ℕ) (hi : i < rows.length) :
    (((engineer_features rows).getD i default).minutes_avg_5 = PyVal.num 0 ∨
        ((engineer_features rows).getD i default).minutes_avg_5 = PyVal.none →
      ((engineer_features rows).getD i default).flag_low_minutes = false) ∧
    (((engineer_features rows).getD i default).pace_avg_5 = PyVal.num 0 ∨
        ((engineer_features rows).getD i default).pace_avg_5 = PyVal.none →
      ((engineer_features rows).getD i default).flag_high_pace = false) ∧
    (((engineer_features rows).getD i default).ts_avg_5 = PyVal.num 0 ∨
        ((engineer_features rows).getD i default).ts_avg_5 = PyVal.none →
      ((engineer_features rows).getD i default).flag_efficiency_spike = false) ∧
    (((engineer_features rows).getD i default).points_avg_5 = PyVal.num 0 ∨
        ((engineer_features rows).getD i default).points_avg_5 = PyVal.none →
      ((engineer_features rows).getD i default).flag_scoring_run = false) := by
  rw [List.getD_eq_getElem _ _ (by rw [engineer_features_length]; exact hi)]
  simp only [engineer_features, List.getElem_map, List.getElem_range]
  refine ⟨?_, ?_, ?_, ?_⟩ <;>
    (intro h; rcases h with h | h <;> (rw [h]; simp [PyVal.truthy]))

/-- Witness for `zero_or_undefined_anchor_flags`: five games of zero minutes
make `minutes_avg_5` a defined, exactly-zero anchor at index 4. -/
theorem zero_or_undefined_anchor_flags_witness :
    ((engineer_features (List.replicate 5 ({ minutes := PyVal.num 0 } : GameRecord))).getD 4
        default).flag_low_minutes = false :=
  (zero_or_undefined_anchor_flags (List.replicate 5 { minutes := PyVal.num 0 })
      (by decide) 4 (by decide)).1 (Or.inl (by with_unfolding_all rfl))

/-- The backtest loop accumulator, reshaped as filter-then-map. -/
theorem foldl_skip_append {β : Type} (f : ℕ → β) :
    ∀ (l : List ℕ) (acc : List β),
      l.foldl (fun a t => if t < 5 then a else a ++ [f t]) acc =
        acc ++ ((l.filter fun t => 5 ≤ t).map f) := by
  intro l
  induction l with
  | nil => intro acc; simp
  | cons x xs ih =>
    intro acc
    by_cases hx : x < 5
    · have hx' : ¬5 ≤ x := by omega
      simp [hx, hx', ih]
    · have hx' : 5 ≤ x := by omega
      simp [hx, hx', ih]

/-- C5: the Backtester fails with the insufficient-data error exactly when the
series length is at most the lookback (in particular when they are equal), and
otherwise returns one comparison record per evaluated index of
`[L-k, L)` in chronological order, skipping the indices with fewer than five
prior games. -/
theorem backtest_insufficient_data_iff (rows : List GameRecord) (k : ℕ) :
    (backtest_recent_games rows k = .error "Not enough games to run a backtest." ↔
      rows.length ≤ k) ∧
    (k < rows.length →
      backtest_recent_games rows k =
        .ok ((((List.range' (rows.length - k) k).filter fun t => 5 ≤ t).map
          (backtestEntry rows)))) := by
  constructor
  · constructor
    · intro h
      by_contra hk
      rw [backtest_recent_games, if_neg hk] at h
      exact Except.noConfusion h
    · intro h
      rw [backtest_recent_games, if_pos h]
  · intro h
    rw [backtest_recent_games, if_neg (by omega)]
    rw [foldl_skip_append]
    simp

/-- Witness for `backtest_insufficient_data_iff`: seven constant games with a
lookback of five evaluate indices 5 and 6. -/
theorem backtest_insufficient_data_iff_witness :
    backtest_recent_games (List.replicate 7 constRow) 5 =
      .ok ((((List.range' ((List.replicate 7 constRow).length - 5) 5).filter
          fun t => 5 ≤ t).map (backtestEntry (List.replicate 7 constRow)))) :=
  (backtest_insufficient_data_iff (List.replicate 7 constRow) 5).2 (by decide)

/-- C7: the loader fails with the not-found error when the source path does
not exist; for a 20-row log and `trailing_games = 15` it returns exactly 15
records: the suffix of a permutation of the parsed, index-annotated rows that
is sorted by the lexicographic order on (date key, original position) — i.e.
the 15 chronologically latest rows ascending, a missing date sorting first
and ties broken by original input order. -/
theorem load_game_logs_spec :
    (∀ t, load_game_logs Option.none t = .error "Game log not found") ∧
    ∀ rows : List RawRow, rows.length = 20 →
      ∃ out s, load_game_logs (some rows) 15 = .ok out ∧
        out.length = 15 ∧
        s.Perm (rows.map parseRow).enum ∧
        List.Sorted lexLe s ∧
        out = (s.drop 5).map Prod.snd := by
  constructor
  · intro t
    rfl
  · intro rows h20
    set s := List.insertionSort lexLe (rows.map parseRow).enum with hs
    have hsperm : s.Perm (rows.map parseRow).enum := List.perm_insertionSort _ _
    have hslen : s.length = 20 := by
      rw [hsperm.length_eq]
      simp [h20]
    have hout :
        load_game_logs (some rows) 15 = .ok ((stableSortByDate (rows.map parseRow)).drop
          ((stableSortByDate (rows.map parseRow)).length - 15)) := by
      rw [load_game_logs]
      simp
    have hsort : stableSortByDate (rows.map parseRow) = s.map Prod.snd := by
      rw [stableSortByDate, hs]
    have hsortlen : (stableSortByDate (rows.map parseRow)).length = 20 := by
      rw [hsort, List.length_map, hslen]
    refine ⟨_, s, hout, ?_, hsperm, List.sorted_insertionSort _ _, ?_⟩
    · rw [List.length_drop, hsortlen]
    · rw [hsort, List.length_map, hslen, ← List.map_drop]

/-- Witness for `load_game_logs_spec`: twenty rows with descending dates, one
of them missing. -/
theorem load_game_logs_spec_witness :
    ∃ out s, load_game_logs
        (some ((List.range 20).map fun i =>
          ({ game_date := if i = 3 then Option.none else some (100 - i),
             minutes := some 30 } : RawRow))) 15 = .ok out ∧
      out.length = 15 ∧
      s.Perm ((((List.range 20).map fun i =>
          ({ game_date := if i = 3 then Option.none else some (100 - i),
             minutes := some 30 } : RawRow)).map parseRow).enum) ∧
      List.Sorted lexLe s ∧
      out = (s.drop 5).map Prod.snd :=
  (load_game_logs_spec.2 ((List.range 20).map fun i =>
      ({ game_date := if i = 3 then Option.none else some (100 - i),
         minutes := some 30 } : RawRow)) (by simp))

/-- C8 (counterexample): a single game whose minutes are the NaN sentinel
makes the minutes blend NaN, and `max(nan, 0.0)` keeps NaN, so an "Out"
injury status yields `expected_minutes = nan`, not 0. -/
theorem injury_out_nan_minutes_cx :
    ((project_player_game (engineer_features [{}]) { injury_status := some "Out" }).toOption.map
        fun p => p.expected_minutes) = some PyVal.nan ∧
    PyVal.nan ≠ PyVal.num 0 := by
  refine ⟨by with_unfolding_all rfl, by simp⟩

/-- C8 (amended): whenever the minutes basis is numeric (latest minutes a
number, context projected minutes and latest minutes trend not NaN), an injury
status containing "out" — case-insensitively, and containing neither
"questionable" nor "probable" — forces `expected_minutes = 0`; and the injury
modifier is 0.92 on "questionable", 0.97 on "probable" (checked only after
questionable fails), 0.0 on "out" (checked after both), and 1.0 otherwise. -/
theorem injury_out_minutes_amended (features : List FeatureRecord) (ctx : Context)
    (s : String) (mq : ℚ)
    (hne : features ≠ [])
    (hstat : ctx.injury_status = some s)
    (hout : strContains s "out" = true)
    (hq : strContains s "questionable" = false)
    (hpr : strContains s "probable" = false)
    (hm : (features.getLastD default).base.minutes = PyVal.num mq)
    (hpm : ctx.projected_minutes ≠ PyVal.nan)
    (htr : (features.getLastD default).minutes_trend ≠ PyVal.nan) :
    (∃ p, project_player_game features ctx = .ok p ∧ p.expected_minutes = PyVal.num 0) ∧
    (∀ s' : String, s' ≠ "" →
      (strContains s' "questionable" = true → injury_minutes_modifier (some s') = 0.92) ∧
      (strContains s' "questionable" = false → strContains s' "probable" = true →
        injury_minutes_modifier (some s') = 0.97) ∧
      (strContains s' "questionable" = false → strContains s' "probable" = false →
        strContains s' "out" = true → injury_minutes_modifier (some s') = 0) ∧
      (strContains s' "questionable" = false → strContains s' "probable" = false →
        strContains s' "out" = false → injury_minutes_modifier (some s') = 1)) := by
  constructor
  · have hs : ¬s = "" := by
      intro hcon
      rw [hcon] at hout
      exact absurd hout (by decide)
    have hmod : injury_minutes_modifier ctx.injury_status = 0 := by
      rw [hstat]
      simp only [injury_minutes_modifier]
      rw [if_neg hs, if_neg (by simp [hq]), if_neg (by simp [hpr]), if_pos hout]
    have hbase : ∃ b : ℚ,
        safe (features.getLastD default).minutes_avg_5
          (features.getLastD default).base.minutes = PyVal.num b := by
      cases h5 : (features.getLastD default).minutes_avg_5 with
      | none => exact ⟨mq, hm⟩
      | nan => exact ⟨mq, hm⟩
      | num a => exact ⟨a, rfl⟩
    obtain ⟨b, hb⟩ := hbase
    have hproj : ∃ c : ℚ,
        pyGet ctx.projected_minutes
          (safe (features.getLastD default).minutes_avg_5
            (features.getLastD default).base.minutes) = PyVal.num c := by
      cases hpmv : ctx.projected_minutes with
      | none => exact ⟨b, hb⟩
      | nan => exact absurd hpmv hpm
      | num c => exact ⟨c, rfl⟩
    obtain ⟨c, hc⟩ := hproj
    have htrend : ∃ t : ℚ,
        pyGet (features.getLastD default).minutes_trend (PyVal.num 0) = PyVal.num t := by
      cases htv : (features.getLastD default).minutes_trend with
      | none => exact ⟨0, rfl⟩
      | nan => exact absurd htv htr
      | num t => exact ⟨t, rfl⟩
    obtain ⟨t, ht⟩ := htrend
    have hempty : features.isEmpty = false := by
      cases features with
      | nil => exact absurd rfl hne
      | cons a l => rfl
    rw [project_player_game]
    simp only [hempty, Bool.false_eq_true, if_false]
    refine ⟨_, rfl, ?_⟩
    show (blendParts (features.getLastD default) ctx).minutes_blend = PyVal.num 0
    rw [hb] at hc
    rw [blendParts]
    simp only [hmod, hb, hc, ht]
    simp [pyAdd, pyMul, pyMax, pyGtB]
  · intro s' hs'
    refine ⟨?_, ?_, ?_, ?_⟩
    · intro h1
      simp only [injury_minutes_modifier]
      rw [if_neg hs', if_pos h1]
    · intro h1 h2
      simp only [injury_minutes_modifier]
      rw [if_neg hs', if_neg (by simp [h1]), if_pos h2]
    · intro h1 h2 h3
      simp only [injury_minutes_modifier]
      rw [if_neg hs', if_neg (by simp [h1]), if_neg (by simp [h2]), if_pos h3]
    · intro h1 h2 h3
      simp only [injury_minutes_modifier]
      rw [if_neg hs', if_neg (by simp [h1]), if_neg (by simp [h2]), if_neg (by simp [h3])]

/-- Witness for `injury_out_minutes_amended`: the constant series with status
"Out". -/
theorem injury_out_minutes_amended_witness :
    (∃ p, project_player_game constFeatures
        { constCtx with injury_status := some "Out" } = .ok p ∧
      p.expected_minutes = PyVal.num 0) ∧
    (∀ s' : String, s' ≠ "" →
      (strContains s' "questionable" = true → injury_minutes_modifier (some s') = 0.92) ∧
      (strContains s' "questionable" = false → strContains s' "probable" = true →
        injury_minutes_modifier (some s') = 0.97) ∧
      (strContains s' "questionable" = false → strContains s' "probable" = false →
        strContains s' "out" = true → injury_minutes_modifier (some s') = 0) ∧
      (strContains s' "questionable" = false → strContains s' "probable" = false →
        strContains s' "out" = false → injury_minutes_modifier (some s') = 1)) :=
  injury_out_minutes_amended constFeatures { constCtx with injury_status := some "Out" }
    "Out" 30 (by with_unfolding_all decide) rfl (by decide) (by decide) (by decide)
    (by with_unfolding_all rfl) (by with_unfolding_all decide) (by with_unfolding_all decide)

theorem PyVal.isNum_iff {v : PyVal} : v.isNum = true ↔ ∃ q, v = PyVal.num q := by
  cases v <;> simp [PyVal.isNum]

theorem pyOr_isNum {a b : PyVal} (ha : a ≠ PyVal.nan) (hb : b.isNum = true) :
    (pyOr a b).isNum = true := by
  cases a with
  | none => simpa [pyOr, PyVal.truthy] using hb
  | nan => exact absurd rfl ha
  | num q =>
    by_cases hq : q = 0
    · simpa [pyOr, PyVal.truthy, hq] using hb
    · simp [pyOr, PyVal.truthy, hq, PyVal.isNum]

theorem pyGet_isNum {v d : PyVal} (hv : v ≠ PyVal.nan) (hd : d.isNum = true) :
    (pyGet v d).isNum = true := by
  cases v with
  | none => simpa [pyGet] using hd
  | nan => exact absurd rfl hv
  | num q => simp [pyGet, PyVal.isNum]

theorem safe_isNum (v fb : PyVal) (hfb : fb.isNum = true) :
    (safe v fb).isNum = true := by
  cases v <;> simpa [safe, PyVal.isNum]

theorem pyMul_ne_none (a b : PyVal) : pyMul a b ≠ PyVal.none := by
  cases a <;> cases b <;> simp [pyMul]

/-- C3 (amended): when the usage basis is entirely undefined through the NaN
missing-value sentinel (trailing-5 usage mean undefined, raw usage rate NaN)
and the context supplies no usage rate, the Blender does NOT return a null
`expected_usage`: the NaN basis falls back through `_safe` to the context
default `0.0`, so `expected_usage = 0` (here under a numeric pace basis, which
makes the pace adjustment a number).  `expected_usage` is null only when the
`usage_rate` key is absent in the Python-`None` sense, which the loader never
produces.  Likewise an entirely-NaN true-shooting basis yields a non-null
(defaulted) `expected_efficiency`; and `expected_points` can be NaN (see the
counterexample), so not every non-nullable numeric output is finite. -/
theorem nan_usage_basis_defaulted (features : List FeatureRecord) (ctx : Context)
    (hne : features ≠ [])
    (hu5 : (features.getLastD default).usage_avg_5 = PyVal.none)
    (hur : (features.getLastD default).base.usage_rate = PyVal.nan)
    (hcu : ctx.usage_rate = PyVal.none)
    (ht5 : (features.getLastD default).ts_avg_5 = PyVal.none)
    (hts : (features.getLastD default).base.true_shooting_pct = PyVal.nan)
    (hpc : ctx.pace_context ≠ PyVal.nan)
    (hp5 : (features.getLastD default).pace_avg_5 ≠ PyVal.nan)
    (hpp : (features.getLastD default).base.pace ≠ PyVal.nan) :
    ∃ p, project_player_game features ctx = .ok p ∧
      p.expected_usage = PyVal.num 0 ∧ p.expected_efficiency ≠ PyVal.none := by
  have hempty : features.isEmpty = false := by
    cases features with
    | nil => exact absurd rfl hne
    | cons a l => rfl
  have hbu : (if pyOr (features.getLastD default).usage_avg_5
          (features.getLastD default).base.usage_rate = PyVal.none then PyVal.none
        else safe (pyOr (features.getLastD default).usage_avg_5
            (features.getLastD default).base.usage_rate)
          (pyGet ctx.usage_rate (PyVal.num 0))) = PyVal.num 0 := by
    rw [hu5, hur, hcu]
    rfl
  obtain ⟨pc, hpc1⟩ := PyVal.isNum_iff.mp
    (pyGet_isNum hpc (pyOr_isNum hp5
      (pyOr_isNum hpp (show (PyVal.num 100).isNum = true from rfl))))
  have hfb1 : (pyGet ctx.pace_context
      (pyOr (features.getLastD default).pace_avg_5
        (pyOr (features.getLastD default).base.pace (PyVal.num 100)))).isNum = true := by
    rw [hpc1]
    rfl
  obtain ⟨pa, hpa1⟩ := PyVal.isNum_iff.mp
    (safe_isNum (features.getLastD default).pace_avg_5
      (pyGet ctx.pace_context
        (pyOr (features.getLastD default).pace_avg_5
          (pyOr (features.getLastD default).base.pace (PyVal.num 100)))) hfb1)
  rw [hpc1] at hpa1
  have hadj : pyAdd (PyVal.num 1)
      (pyDiv (pySub
          (pyGet ctx.pace_context
            (pyOr (features.getLastD default).pace_avg_5
              (pyOr (features.getLastD default).base.pace (PyVal.num 100))))
          (safe (features.getLastD default).pace_avg_5
            (pyGet ctx.pace_context
              (pyOr (features.getLastD default).pace_avg_5
                (pyOr (features.getLastD default).base.pace (PyVal.num 100))))))
        (PyVal.num 100)) = PyVal.num (1 + (pc - pa) / 100) := by
    rw [hpc1, hpa1]
    simp [pySub, pyDiv, pyAdd]
  have heff0 : pyOr (features.getLastD default).ts_avg_5
      (features.getLastD default).base.true_shooting_pct = PyVal.nan := by
    rw [ht5, hts]
    rfl
  have heffbase : safe (pyOr (features.getLastD default).ts_avg_5
        (features.getLastD default).base.true_shooting_pct)
      (pyGet ctx.true_shooting_pct (PyVal.num 0.56)) ≠ PyVal.none := by
    rw [heff0]
    show pyGet ctx.true_shooting_pct (PyVal.num 0.56) ≠ PyVal.none
    cases hv : ctx.true_shooting_pct <;> simp [pyGet]
  rw [project_player_game]
  simp only [hempty, Bool.false_eq_true, if_false]
  refine ⟨_, rfl, ?_, ?_⟩
  · show (blendParts (features.getLastD default) ctx).expected_usage = PyVal.num 0
    rw [blendParts]
    simp only [hbu, hadj]
    rw [if_neg (by simp)]
    simp [pyMul]
  · show (blendParts (features.getLastD default) ctx).expected_efficiency ≠ PyVal.none
    rw [blendParts]
    simp only [heff0]
    rw [if_neg (by simp; cases ctx.true_shooting_pct <;> simp [pyGet, safe])]
    exact pyMul_ne_none _ _

/-- Witness for `nan_usage_basis_defaulted` at the three-game NaN-usage
series. -/
theorem nan_usage_basis_defaulted_witness :
    ∃ p, project_player_game (engineer_features nanUsageRows) {} = .ok p ∧
      p.expected_usage = PyVal.num 0 ∧ p.expected_efficiency ≠ PyVal.none :=
  nan_usage_basis_defaulted (engineer_features nanUsageRows) {}
    (by with_unfolding_all decide) (by with_unfolding_all rfl) (by with_unfolding_all rfl)
    rfl (by with_unfolding_all rfl) (by with_unfolding_all rfl)
    (by decide) (by with_unfolding_all decide) (by with_unfolding_all decide)

/-- `blendParts` never reads the context's athlete identifier fields. -/
theorem blendParts_pid (l : FeatureRecord) (c : Context) (x : Option String) :
    blendParts l { c with player_id := x } = blendParts l c := by
  cases c
  rfl

/-- Per-index noninterference of the backtest loop body: with the same sliced
history, predictions and notes agree for any two actual records that agree on
`pace` and `opponent_def_rating` (the only actual fields the synthetic context
feeds into them; the actual `player_id` only names the projection). -/
theorem backtestEntryCore_noninterf (h : List GameRecord) (a₁ a₂ : GameRecord)
    (hp : a₁.pace = a₂.pace) (hd : a₁.opponent_def_rating = a₂.opponent_def_rating) :
    (backtestEntryCore h a₁).projected_points = (backtestEntryCore h a₂).projected_points ∧
    (backtestEntryCore h a₁).projection_minutes =
      (backtestEntryCore h a₂).projection_minutes ∧
    (backtestEntryCore h a₁).notes = (backtestEntryCore h a₂).notes := by
  have hctx : backtestContext h a₁ =
      { backtestContext h a₂ with player_id := some (a₁.player_id.getD "unknown_player") } := by
    simp [backtestContext, hp, hd]
  unfold backtestEntryCore
  rw [hctx]
  by_cases hfe : (engineer_features h).isEmpty
  · rw [project_player_game, project_player_game, if_pos hfe, if_pos hfe]
    exact ⟨rfl, rfl, rfl⟩
  · rw [project_player_game, project_player_game, if_neg hfe, if_neg hfe]
    simp [blendParts_pid]

/-- C4: two-run noninterference of the Backtester's per-index computation:
for an evaluated index t, the predicted points, predicted minutes and notes
are a function only of the strict prefix `rows[0:t]` and of the `pace` and
`opponent_def_rating` fields of the record at t — changing any other field of
record t, or any record after t, leaves them unchanged. -/
theorem backtest_prediction_noninterference (rows₁ rows₂ : List GameRecord) (k t : ℕ)
    (hwf₁ : ∀ r ∈ rows₁, r.WF) (hwf₂ : ∀ r ∈ rows₂, r.WF)
    (hL : rows₁.length = rows₂.length)
    (hlo : rows₁.length - k ≤ t) (hhi : t < rows₁.length)
    (hpre : rows₁.take t = rows₂.take t)
    (hpace : (rows₁.getD t default).pace = (rows₂.getD t default).pace)
    (hdef : (rows₁.getD t default).opponent_def_rating =
      (rows₂.getD t default).opponent_def_rating) :
    (backtestEntry rows₁ t).projected_points = (backtestEntry rows₂ t).projected_points ∧
    (backtestEntry rows₁ t).projection_minutes =
      (backtestEntry rows₂ t).projection_minutes ∧
    (backtestEntry rows₁ t).notes = (backtestEntry rows₂ t).notes := by
  unfold backtestEntry
  rw [hpre]
  exact backtestEntryCore_noninterf _ _ _ hpace hdef

/-- Witness for `backtest_prediction_noninterference` at index 6 of the two
eight-game series. -/
theorem backtest_prediction_noninterference_witness :
    (backtestEntry niRows1 6).projected_points = (backtestEntry niRows2 6).projected_points ∧
    (backtestEntry niRows1 6).projection_minutes =
      (backtestEntry niRows2 6).projection_minutes ∧
    (backtestEntry niRows1 6).notes = (backtestEntry niRows2 6).notes :=
  backtest_prediction_noninterference niRows1 niRows2 5 6
    (by with_unfolding_all decide) (by with_unfolding_all decide)
    (by with_unfolding_all rfl) (by decide)
    (by decide) (by with_unfolding_all rfl)
    (by with_unfolding_all rfl) (by with_unfolding_all rfl)

end NbaProjections
